import Mathlib

/-!
Shallow embedding of the GeoGPT research platform session store
(`src/unnamed/part_001`, first document: the zustand `useAppStore`),
the backend API wrapper (`src/frontend/src/api.ts`, `geoApi.chat`),
and the map-surface action observer
(`src/frontend/src/components/MapView.tsx`, `handleMapAction` effect).

JS numbers are embedded as rationals (no floating arithmetic occurs in
the modelled code paths; numbers are only stored and compared), opaque
payloads (`source`, `paint`, `data`, dataset entries) as strings, and
`Date.now()` as a logical clock threaded through the store state.
-/

namespace GeoGPT

/-- View state of the map: `MapViewState` in the store. -/
structure MapViewState where
  longitude : ℚ
  latitude : ℚ
  zoom : ℚ
  pitch : ℚ
  bearing : ℚ
  deriving DecidableEq, Repr

/-- Layer descriptor: `MapLayer` in the store. `source`, `paint` and
`deckLayer` are opaque payloads, embedded as strings; the `type` union of
string tags is embedded as a string. -/
structure MapLayer where
  id : String
  name : String
  type : String
  visible : Bool
  opacity : ℚ
  source : String
  paint : Option String
  deckLayer : Option String
  deriving DecidableEq, Repr

/-- One entry of `ChartData.datasets`. -/
structure Dataset where
  label : Option String
  data : List ℚ
  backgroundColor : Option String
  borderColor : Option String
  fill : Option Bool
  tension : Option ℚ
  deriving DecidableEq, Repr

/-- Chart payload: `ChartData` in the store. Labels may be strings or
numbers on the wire; embedded as strings. -/
structure ChartData where
  type : String
  title : String
  labels : List String
  datasets : List Dataset
  deriving DecidableEq, Repr

/-- Map action wire shape from `api.ts` (`ChatResponse.map_action`):
`\x7btype, center?, zoom?, pitch?, bearing?, bounds?, duration?\x7d`. -/
structure MapAction where
  type : String
  center : Option (ℚ × ℚ)
  zoom : Option ℚ
  pitch : Option ℚ
  bearing : Option ℚ
  bounds : Option ((ℚ × ℚ) × (ℚ × ℚ))
  duration : Option ℚ
  deriving DecidableEq, Repr

/-- Chat message: `ChatMessage` in the store. `timestamp` is the logical
clock value at creation; `data` is an opaque payload. -/
structure ChatMessage where
  id : String
  role : String
  content : String
  timestamp : Nat
  code : Option String
  mapLayers : Option (List MapLayer)
  data : Option String
  chart : Option ChartData
  mapAction : Option MapAction
  deriving DecidableEq, Repr

/-- Wire shape of one layer in a chat response (`map_layers` entries):
`\x7bid, type, source, paint\x7d`. -/
structure WireLayer where
  id : String
  type : String
  source : String
  paint : Option String
  deriving DecidableEq, Repr

/-- Chat response wire shape from `api.ts` (`ChatResponse`). -/
structure ChatResponse where
  message : String
  map_layers : Option (List WireLayer)
  map_action : Option MapAction
  code : Option String
  data : Option String
  chart : Option ChartData
  status : String
  deriving DecidableEq, Repr

/-- Full store state (`AppState` in the store), plus `clock`, the
embedding of `Date.now()`: it ticks whenever the code reads the wall
clock to mint a message id / timestamp. -/
structure AppState where
  viewState : MapViewState
  layers : List MapLayer
  selectedBasemap : String
  is3DEnabled : Bool
  pendingMapAction : Option MapAction
  messages : List ChatMessage
  isLoading : Bool
  currentChart : Option ChartData
  isSidebarOpen : Bool
  activePanel : String
  showCode : Bool
  showChart : Bool
  clock : Nat
  deriving DecidableEq, Repr

/-- Argument of `addMessage`: `Omit<ChatMessage, 'id' | 'timestamp'>`. -/
structure MessageInput where
  role : String
  content : String
  code : Option String := none
  mapLayers : Option (List MapLayer) := none
  data : Option String := none
  chart : Option ChartData := none
  mapAction : Option MapAction := none
  deriving DecidableEq, Repr

/-! ## Store actions (`useAppStore` action functions) -/

/-- List-level core of `addLayer`:
`[...state.layers.filter((l) => l.id !== layer.id), layer]`. -/
def addLayerList (layers : List MapLayer) (layer : MapLayer) : List MapLayer :=
  layers.filter (fun l => decide (l.id ≠ layer.id)) ++ [layer]

/-- Store action `addLayer`. -/
def addLayer (s : AppState) (layer : MapLayer) : AppState :=
  { s with layers := addLayerList s.layers layer }

/-- Store action `removeLayer`:
`state.layers.filter((l) => l.id !== layerId)`. -/
def removeLayer (s : AppState) (layerId : String) : AppState :=
  { s with layers := s.layers.filter (fun l => decide (l.id ≠ layerId)) }

/-- Store action `clearLayers`: `set(\x7b layers: [] \x7d)`. -/
def clearLayers (s : AppState) : AppState :=
  { s with layers := [] }

/-- Store action `toggleLayerVisibility`: maps over the layers, flipping
`visible` on the layer whose id matches. -/
def toggleLayerVisibility (s : AppState) (layerId : String) : AppState :=
  { s with layers := s.layers.map (fun l =>
      if l.id = layerId then { l with visible := !l.visible } else l) }

/-- Store action `setLayerOpacity`: maps over the layers, replacing
`opacity` on the layer whose id matches (no clamping). -/
def setLayerOpacity (s : AppState) (layerId : String) (opacity : ℚ) : AppState :=
  { s with layers := s.layers.map (fun l =>
      if l.id = layerId then { l with opacity := opacity } else l) }

/-- Store action `setBasemap`. -/
def setBasemap (s : AppState) (basemapId : String) : AppState :=
  { s with selectedBasemap := basemapId }

/-- Store action `toggle3D`: flips `is3DEnabled` and sets `pitch` from
the OLD flag: `pitch: state.is3DEnabled ? 0 : 45`. -/
def toggle3D (s : AppState) : AppState :=
  { s with is3DEnabled := !s.is3DEnabled,
           viewState := { s.viewState with pitch := if s.is3DEnabled then 0 else 45 } }

/-- Store action `setMapAction`: writes the single pending-action slot. -/
def setMapAction (s : AppState) (action : MapAction) : AppState :=
  { s with pendingMapAction := some action }

/-- Store action `clearMapAction`: clears the pending-action slot. -/
def clearMapAction (s : AppState) : AppState :=
  { s with pendingMapAction := none }

/-- Store action `addMessage`: appends, minting `id = msg-${Date.now()}`
and a fresh timestamp; the clock tick embeds the wall-clock read. -/
def addMessage (s : AppState) (m : MessageInput) : AppState :=
  { s with
      messages := s.messages ++
        [{ id := "msg-" ++ toString s.clock
           role := m.role
           content := m.content
           timestamp := s.clock
           code := m.code
           mapLayers := m.mapLayers
           data := m.data
           chart := m.chart
           mapAction := m.mapAction }]
      clock := s.clock + 1 }

/-- The single assistant message installed by `clearMessages`. -/
def clearedWelcomeMessage (t : Nat) : ChatMessage :=
  { id := "welcome"
    role := "assistant"
    content := "🌍 Chat cleared. How can I help you with geospatial analysis?"
    timestamp := t
    code := none
    mapLayers := none
    data := none
    chart := none
    mapAction := none }

/-- Store action `clearMessages`: resets the log to exactly one assistant
message and clears the chart (`currentChart: null`). -/
def clearMessages (s : AppState) : AppState :=
  { s with
      messages := [clearedWelcomeMessage s.clock]
      currentChart := none
      clock := s.clock + 1 }

/-- Store action `setLoading`. -/
def setLoading (s : AppState) (loading : Bool) : AppState :=
  { s with isLoading := loading }

/-- Store action `setChart`. -/
def setChart (s : AppState) (chart : Option ChartData) : AppState :=
  { s with currentChart := chart }

/-! ## Initial state -/

/-- Content of the seeded welcome message. -/
def welcomeContent : String :=
  "# 🌍 Welcome to ApexGIS v3.0 - Presidential Platform\n\nI\x27m your AI assistant for advanced geospatial and environmental analysis. Here\x27s what I can do:\n\n**🌡️ Environmental Monitoring (NEW!):**\n- \"Show air quality\" - Real-time AQI data\n- \"Show methane emissions\" - CH₄ hotspots\n- \"Show CO2 emissions\" - Industrial sources\n- \"Wind flow\" - Animated wind patterns\n\n**🔥 Active Monitoring:**\n- \"Show fires\" - NASA FIRMS fire detection\n- \"Temperature map\" - ERA5 temperature data\n- \"Environmental dashboard\" - All data overview\n\n**📍 City Navigation:**\n- \"Show me Astana\" / \"Zoom to Almaty\"\n- \"Go to Shymkent\"\n\n**💧 Hydrology:**\n- \"Glaciers near Almaty\"\n- \"Rivers near Almaty\"\n- \"Show all water bodies\"\n\n**📊 Data Analysis:**\n- \"Population of Almaty\"\n- \"Compare Astana vs Almaty\"\n- \"Show all cities\"\n\n*Data Sources: OpenAQ, Sentinel-5P, NASA FIRMS, ERA5*\nCurrently tracking environmental data across Kazakhstan 🇰🇿"

/-- The seeded welcome message, timestamped at clock 0. -/
def welcomeMessage : ChatMessage :=
  { id := "welcome"
    role := "assistant"
    content := welcomeContent
    timestamp := 0
    code := none
    mapLayers := none
    data := none
    chart := none
    mapAction := none }

/-- The initial store state built by `create(...)`: view centered on
Kazakhstan, no layers, one welcome message, not loading, no chart. -/
def initialState : AppState :=
  { viewState := { longitude := 67, latitude := 48, zoom := 4, pitch := 0, bearing := 0 }
    layers := []
    selectedBasemap := "dark"
    is3DEnabled := false
    pendingMapAction := none
    messages := [welcomeMessage]
    isLoading := false
    currentChart := none
    isSidebarOpen := true
    activePanel := "chat"
    showCode := false
    showChart := true
    clock := 1 }

/-! ## Backend collaborator (`api.ts`, `geoApi.chat`) -/

/-- Outcome of the HTTP transport underlying `geoApi.chat`. -/
inductive TransportOutcome where
  | ok (resp : ChatResponse)
  | failure
  deriving DecidableEq, Repr

/-- The locally synthesized fallback response `geoApi.chat` returns when
the transport throws. -/
def fallbackResponse (query : String) : ChatResponse :=
  { message := "I received your query: \"" ++ query ++ "\". The backend server might not be running. Please start the backend with: \x60cd backend && python main.py\x60"
    map_layers := none
    map_action := none
    code := none
    data := none
    chart := none
    status := "error" }

/-- `geoApi.chat`: returns the transported response, or, on transport
failure, the locally synthesized error-status fallback (never throws). -/
def geoApiChat (query : String) (t : TransportOutcome) : ChatResponse :=
  match t with
  | .ok resp => resp
  | .failure => fallbackResponse query

/-! ## Chat dispatcher (`sendMessage` in the store) -/

/-- Conversion the store applies to each wire layer in `map_layers`
(both into the assistant message snapshot and into `addLayer`):
`\x7bid, name: id, type, visible: true, opacity: 1, source, paint\x7d`. -/
def toMapLayer (w : WireLayer) : MapLayer :=
  { id := w.id
    name := w.id
    type := w.type
    visible := true
    opacity := 1
    source := w.source
    paint := w.paint
    deckLayer := none }

/-- Store action `sendMessage`, parameterized by what `await
geoApi.chat(...)` does: returns a response (`Except.ok`) or throws
(`Except.error`). Follows the source line by line: append user message,
set loading, then either apply the response (assistant message; full
layer replace when `map_layers` is present, even when empty; chart
replace when present; action enqueue when present) or append the generic
failure message; finally set loading to false on every path. -/
def sendMessageWith (s : AppState) (query : String)
    (outcome : Except Unit ChatResponse) : AppState :=
  let s1 := addMessage s { role := "user", content := query }
  let s2 := setLoading s1 true
  match outcome with
  | .ok response =>
      let s3 := addMessage s2
        { role := "assistant"
          content := response.message
          chart := response.chart
          mapAction := response.map_action
          mapLayers := response.map_layers.map (fun ls => ls.map toMapLayer) }
      let s4 :=
        match response.map_layers with
        | some ls => ls.foldl (fun st w => addLayer st (toMapLayer w)) (clearLayers s3)
        | none => s3
      let s5 :=
        match response.chart with
        | some c => setChart s4 (some c)
        | none => s4
      let s6 :=
        match response.map_action with
        | some a => setMapAction s5 a
        | none => s5
      setLoading s6 false
  | .error _ =>
      let s3 := addMessage s2
        { role := "assistant"
          content := "❌ Failed to process request. Please try again." }
      setLoading s3 false

/-- `sendMessage` driven by the transport: `geoApi.chat` itself never
throws (it converts transport failure into the fallback response), so
the dispatcher always takes the `.ok` branch of the processed response. -/
def sendMessage (s : AppState) (query : String) (t : TransportOutcome) : AppState :=
  sendMessageWith s query (.ok (geoApiChat query t))

/-! ## Map-surface action observer (`MapView.tsx`) -/

/-- Camera command issued to the map engine. -/
inductive CameraCommand where
  | flyTo (center : Option (ℚ × ℚ)) (zoom pitch bearing duration : ℚ)
  | fitBounds (bounds : (ℚ × ℚ) × (ℚ × ℚ)) (padding duration : ℚ)
  deriving DecidableEq, Repr

/-- JS `x || d` on an optional number: `undefined` and `0` are falsy. -/
def orNum (x : Option ℚ) (d : ℚ) : ℚ :=
  match x with
  | none => d
  | some v => if v = 0 then d else v

/-- `handleMapAction`, the translation part: produces the camera command
(`map.flyTo` with `zoom || 12`, `pitch || 0`, `bearing || 0`,
`duration || 2000`; `map.fitBounds` with padding 50 and duration 2000,
only when `bounds` is present), or nothing for other type tags. -/
def handleMapAction (action : MapAction) : Option CameraCommand :=
  if action.type = "flyTo" then
    some (.flyTo action.center (orNum action.zoom 12) (orNum action.pitch 0)
      (orNum action.bearing 0) (orNum action.duration 2000))
  else if action.type = "fitBounds" then
    match action.bounds with
    | some b => some (.fitBounds b 50 2000)
    | none => none
  else none

/-- The subscription callback on the `pendingMapAction` slice: when the
slot holds an action, issue its camera command to the map engine (if the
map ref is mounted and the action translates) and clear the slot; when
the slot is empty, do nothing. `cmds` accumulates the commands issued to
the map engine. -/
def notifyMapObserver (mapReady : Bool) (s : AppState)
    (cmds : List CameraCommand) : AppState × List CameraCommand :=
  match s.pendingMapAction with
  | none => (s, cmds)
  | some a =>
      let issued :=
        if mapReady then
          match handleMapAction a with
          | some c => cmds ++ [c]
          | none => cmds
        else cmds
      (clearMapAction s, issued)

/-! ## Store operation alphabet, for reachability invariants -/

/-- One call to a store action touching the layer list, or a settled
`sendMessage` call. -/
inductive StoreOp where
  | addLayer (l : MapLayer)
  | removeLayer (id : String)
  | clearLayers
  | toggleLayerVisibility (id : String)
  | setLayerOpacity (id : String) (v : ℚ)
  | sendMessage (q : String) (outcome : Except Unit ChatResponse)
  deriving Repr

/-- Apply one store operation. -/
def applyOp (s : AppState) : StoreOp → AppState
  | .addLayer l => addLayer s l
  | .removeLayer i => removeLayer s i
  | .clearLayers => clearLayers s
  | .toggleLayerVisibility i => toggleLayerVisibility s i
  | .setLayerOpacity i v => setLayerOpacity s i v
  | .sendMessage q outcome => sendMessageWith s q outcome

/-- State reached from the initial state by a sequence of operations. -/
def runOps (ops : List StoreOp) : AppState :=
  ops.foldl applyOp initialState

/-! ## Concrete sample inputs used to witness the theorems -/

/-- Sample layer with id `alpha`. -/
def sampleLayerA : MapLayer :=
  { id := "alpha", name := "Alpha", type := "geojson", visible := true,
    opacity := 1, source := "src-a", paint := none, deckLayer := none }

/-- Sample layer with id `beta`. -/
def sampleLayerB : MapLayer :=
  { id := "beta", name := "Beta", type := "circle", visible := true,
    opacity := 1, source := "src-b", paint := none, deckLayer := none }

/-- Sample layer re-using id `alpha` with different content. -/
def sampleLayerA2 : MapLayer :=
  { id := "alpha", name := "Alpha v2", type := "heatmap", visible := false,
    opacity := 1, source := "src-a2", paint := some "p", deckLayer := none }

/-- Sample successful chat response carrying an empty `map_layers` list. -/
def emptyLayersResponse : ChatResponse :=
  { message := "cleared", map_layers := some [], map_action := none,
    code := none, data := none, chart := none, status := "success" }

/-- Sample flyTo action with every optional camera field unspecified. -/
def sampleFlyTo : MapAction :=
  { type := "flyTo", center := some (76, 43), zoom := none, pitch := none,
    bearing := none, bounds := none, duration := none }

/-! ## Helper lemmas on the layer-list algebra -/

lemma filter_ne_id_of_not_mem (ls : List MapLayer) (i : String)
    (h : i ∉ ls.map MapLayer.id) :
    ls.filter (fun l => decide (l.id ≠ i)) = ls := by
  induction ls with
  | nil => rfl
  | cons hd tl ih =>
      simp only [List.map_cons, List.mem_cons, not_or] at h
      obtain ⟨h1, h2⟩ := h
      rw [List.filter_cons, if_pos (by simpa using Ne.symm h1), ih h2]

lemma map_ite_id_of_not_mem (ls : List MapLayer) (i : String)
    (g : MapLayer → MapLayer) (h : i ∉ ls.map MapLayer.id) :
    ls.map (fun l => if l.id = i then g l else l) = ls := by
  induction ls with
  | nil => rfl
  | cons hd tl ih =>
      simp only [List.map_cons, List.mem_cons, not_or] at h
      obtain ⟨h1, h2⟩ := h
      simp [Ne.symm h1, ih h2]

lemma ids_filter_ne (ls : List MapLayer) (i : String) :
    (ls.filter (fun l => decide (l.id ≠ i))).map MapLayer.id
      = (ls.map MapLayer.id).filter (fun j => decide (j ≠ i)) := by
  induction ls with
  | nil => rfl
  | cons hd tl ih =>
      rw [List.filter_cons, List.map_cons, List.filter_cons]
      by_cases h : hd.id = i
      · rw [if_neg (by simp [h]), if_neg (by simp [h]), ih]
      · rw [if_pos (by simpa using h), if_pos (by simpa using h), List.map_cons, ih]

lemma ids_addLayerList (ls : List MapLayer) (x : MapLayer) :
    (addLayerList ls x).map MapLayer.id
      = (ls.map MapLayer.id).filter (fun j => decide (j ≠ x.id)) ++ [x.id] := by
  unfold addLayerList
  rw [List.map_append, ids_filter_ne]
  rfl

lemma nodup_ids_addLayerList (ls : List MapLayer) (x : MapLayer)
    (h : (ls.map MapLayer.id).Nodup) :
    ((addLayerList ls x).map MapLayer.id).Nodup := by
  rw [ids_addLayerList]
  refine List.Nodup.append (h.filter _) (List.nodup_singleton _) ?_
  intro a ha hb
  simp only [List.mem_filter, decide_eq_true_eq] at ha
  simp only [List.mem_singleton] at hb
  exact ha.2 hb

lemma toFinset_ids_addLayerList (ls : List MapLayer) (x : MapLayer) :
    ((addLayerList ls x).map MapLayer.id).toFinset
      = insert x.id (ls.map MapLayer.id).toFinset := by
  rw [ids_addLayerList]
  ext a
  by_cases h : a = x.id <;> simp [h, List.mem_filter]

lemma nodup_ids_foldl_addLayerList (seq : List MapLayer) :
    ∀ acc : List MapLayer, (acc.map MapLayer.id).Nodup →
    ((seq.foldl addLayerList acc).map MapLayer.id).Nodup := by
  induction seq with
  | nil => intro acc h; exact h
  | cons x xs ih =>
      intro acc h
      exact ih (addLayerList acc x) (nodup_ids_addLayerList acc x h)

lemma toFinset_ids_foldl_addLayerList (seq : List MapLayer) :
    ∀ acc : List MapLayer,
    ((seq.foldl addLayerList acc).map MapLayer.id).toFinset
      = (acc.map MapLayer.id).toFinset ∪ (seq.map MapLayer.id).toFinset := by
  induction seq with
  | nil => intro acc; simp
  | cons x xs ih =>
      intro acc
      rw [List.foldl_cons, ih (addLayerList acc x), toFinset_ids_addLayerList]
      simp [Finset.insert_union, Finset.union_insert]

lemma length_foldl_addLayerList_nil (seq : List MapLayer) :
    (seq.foldl addLayerList []).length = (seq.map MapLayer.id).dedup.length := by
  have hn := nodup_ids_foldl_addLayerList seq [] (by simp)
  have hf := toFinset_ids_foldl_addLayerList seq []
  have hlen : (seq.foldl addLayerList []).length
      = ((seq.foldl addLayerList []).map MapLayer.id).length := by
    simp
  rw [hlen, ← List.toFinset_card_of_nodup hn, hf]
  simp [List.card_toFinset]

lemma string_filter_ne_of_not_mem (is : List String) (i : String) (h : i ∉ is) :
    is.filter (fun j => decide (j ≠ i)) = is := by
  induction is with
  | nil => rfl
  | cons hd tl ih =>
      simp only [List.mem_cons, not_or] at h
      obtain ⟨h1, h2⟩ := h
      rw [List.filter_cons, if_pos (by simpa using Ne.symm h1), ih h2]

lemma length_filter_ne_of_nodup_mem (is : List String) (i : String)
    (hnd : is.Nodup) (hm : i ∈ is) :
    (is.filter (fun j => decide (j ≠ i))).length + 1 = is.length := by
  induction is with
  | nil => cases hm
  | cons hd tl ih =>
      by_cases h : hd = i
      · have hnt : i ∉ tl := by
          rw [← h]; exact (List.nodup_cons.mp hnd).1
        rw [List.filter_cons, if_neg (by simp [h]),
          string_filter_ne_of_not_mem tl i hnt]
        simp
      · have hm' : i ∈ tl := by
          rcases List.mem_cons.mp hm with h1 | h1
          · exact absurd h1.symm h
          · exact h1
        have ih' := ih (List.nodup_cons.mp hnd).2 hm'
        rw [List.filter_cons, if_pos (by simpa using h), List.length_cons, List.length_cons]
        omega

lemma length_addLayerList_of_mem (ls : List MapLayer) (x : MapLayer)
    (hnd : (ls.map MapLayer.id).Nodup) (hx : x.id ∈ ls.map MapLayer.id) :
    (addLayerList ls x).length = ls.length := by
  have h1 : (addLayerList ls x).length = ((addLayerList ls x).map MapLayer.id).length := by
    simp
  have h2 : ls.length = (ls.map MapLayer.id).length := by simp
  rw [h1, h2, ids_addLayerList, List.length_append, List.length_singleton]
  exact length_filter_ne_of_nodup_mem (ls.map MapLayer.id) x.id hnd hx

lemma getLast_addLayerList (ls : List MapLayer) (x : MapLayer) :
    (addLayerList ls x).getLast? = some x := by
  unfold addLayerList
  rw [List.getLast?_append]
  rfl

lemma foldl_addLayerList_of_fresh (l : List MapLayer) :
    ∀ acc : List MapLayer, (l.map MapLayer.id).Nodup →
    (∀ a ∈ l.map MapLayer.id, a ∉ acc.map MapLayer.id) →
    l.foldl addLayerList acc = acc ++ l := by
  induction l with
  | nil => intro acc _ _; simp
  | cons x xs ih =>
      intro acc hnd hdisj
      have hx : x.id ∉ acc.map MapLayer.id :=
        hdisj x.id (by simp)
      have hstep : addLayerList acc x = acc ++ [x] := by
        unfold addLayerList
        rw [filter_ne_id_of_not_mem acc x.id hx]
      rw [List.foldl_cons, hstep,
        ih (acc ++ [x]) (List.nodup_cons.mp (by simpa using hnd)).2 ?_]
      · simp
      · intro a ha
        simp only [List.map_append, List.mem_append, List.map_cons,
          List.map_nil, List.mem_singleton, not_or]
        constructor
        · exact hdisj a (by simp [ha])
        · intro hax
          have hx_notin : x.id ∉ xs.map MapLayer.id :=
            (List.nodup_cons.mp (by simpa using hnd)).1
          rw [hax] at ha
          exact hx_notin ha

lemma ids_map_toMapLayer (ls : List WireLayer) :
    (ls.map toMapLayer).map MapLayer.id = ls.map WireLayer.id := by
  rw [List.map_map]
  rfl

lemma layers_foldl_addLayer (ws : List WireLayer) :
    ∀ s0 : AppState,
    (ws.foldl (fun st w => addLayer st (toMapLayer w)) s0).layers
      = (ws.map toMapLayer).foldl addLayerList s0.layers := by
  induction ws with
  | nil => intro s0; rfl
  | cons w wt ih =>
      intro s0
      rw [List.foldl_cons, List.map_cons, List.foldl_cons, ih]
      rfl

lemma toggleList_involutive (i : String) (ls : List MapLayer) :
    ((ls.map (fun l => if l.id = i then { l with visible := !l.visible } else l)).map
      (fun l => if l.id = i then { l with visible := !l.visible } else l)) = ls := by
  induction ls with
  | nil => rfl
  | cons hd tl ih =>
      rw [List.map_cons, List.map_cons, ih]
      by_cases h : hd.id = i
      · subst h
        simp
      · simp [h]

lemma set_layers_eq_self (s : AppState) {ls : List MapLayer} (h : ls = s.layers) :
    { s with layers := ls } = s := by
  rw [h]

lemma ids_map_ite (ls : List MapLayer) (i : String) (g : MapLayer → MapLayer)
    (hg : ∀ l, (g l).id = l.id) :
    (ls.map (fun l => if l.id = i then g l else l)).map MapLayer.id
      = ls.map MapLayer.id := by
  induction ls with
  | nil => rfl
  | cons hd tl ih =>
      rw [List.map_cons, List.map_cons, List.map_cons, ih]
      by_cases h : hd.id = i
      · rw [if_pos h, hg]
      · rw [if_neg h]

/-! ## Helper lemmas on the layer list produced by `sendMessage` -/

lemma layers_sendMessageWith_some (s : AppState) (q : String) (resp : ChatResponse)
    (ls : List WireLayer) (h : resp.map_layers = some ls) :
    (sendMessageWith s q (.ok resp)).layers
      = (ls.map toMapLayer).foldl addLayerList [] := by
  cases hc : resp.chart <;> cases ha : resp.map_action <;>
    simp [sendMessageWith, h, hc, ha, setChart, setMapAction, setLoading,
      addMessage, clearLayers, layers_foldl_addLayer]

lemma layers_sendMessageWith_none (s : AppState) (q : String) (resp : ChatResponse)
    (h : resp.map_layers = none) :
    (sendMessageWith s q (.ok resp)).layers = s.layers := by
  cases hc : resp.chart <;> cases ha : resp.map_action <;>
    simp [sendMessageWith, h, hc, ha, setChart, setMapAction, setLoading, addMessage]

lemma layers_sendMessageWith_error (s : AppState) (q : String) (e : Unit) :
    (sendMessageWith s q (.error e)).layers = s.layers := rfl

lemma nodup_layers_sendMessageWith (s : AppState) (q : String)
    (outcome : Except Unit ChatResponse)
    (h : (s.layers.map MapLayer.id).Nodup) :
    ((sendMessageWith s q outcome).layers.map MapLayer.id).Nodup := by
  cases outcome with
  | error e => rw [layers_sendMessageWith_error]; exact h
  | ok resp =>
      cases hml : resp.map_layers with
      | none => rw [layers_sendMessageWith_none s q resp hml]; exact h
      | some ls =>
          rw [layers_sendMessageWith_some s q resp ls hml]
          exact nodup_ids_foldl_addLayerList (ls.map toMapLayer) [] (by simp)

lemma nodup_layers_applyOp (s : AppState) (op : StoreOp)
    (h : (s.layers.map MapLayer.id).Nodup) :
    ((applyOp s op).layers.map MapLayer.id).Nodup := by
  cases op with
  | addLayer l => exact nodup_ids_addLayerList s.layers l h
  | removeLayer i =>
      show ((s.layers.filter _).map MapLayer.id).Nodup
      rw [ids_filter_ne]
      exact h.filter _
  | clearLayers =>
      show (([] : List MapLayer).map MapLayer.id).Nodup
      simp
  | toggleLayerVisibility i =>
      show ((s.layers.map _).map MapLayer.id).Nodup
      rw [ids_map_ite s.layers i (fun l => { l with visible := !l.visible })
        (fun l => rfl)]
      exact h
  | setLayerOpacity i v =>
      show ((s.layers.map _).map MapLayer.id).Nodup
      rw [ids_map_ite s.layers i (fun l => { l with opacity := v })
        (fun l => rfl)]
      exact h
  | sendMessage q outcome => exact nodup_layers_sendMessageWith s q outcome h

/-! ## Claim theorems -/

/-- C1: for every query and every outcome of the backend collaborator call
(success, error-status response, or thrown exception), after a
`sendMessage` call settles the store's `isLoading` flag is false. -/
theorem claim_C1 (s : AppState) (q : String) (outcome : Except Unit ChatResponse)
    (t : TransportOutcome) :
    (sendMessageWith s q outcome).isLoading = false
  ∧ (sendMessage s q t).isLoading = false := by
  constructor
  · cases outcome <;> rfl
  · rfl

/-- C2: when a `sendMessage` response carries a present `map_layers`
field, the resulting layer list is a full replace — clear, then add each
returned layer — independent of the prior layer list; an empty
`map_layers` list leaves zero layers, and when the returned ids are
distinct the result is exactly the returned layers (as converted by the
store). -/
theorem claim_C2 (s : AppState) (q : String) (resp : ChatResponse)
    (ls : List WireLayer) (h : resp.map_layers = some ls) :
    (sendMessageWith s q (.ok resp)).layers
      = (ls.map toMapLayer).foldl addLayerList []
  ∧ (ls = [] → (sendMessageWith s q (.ok resp)).layers = [])
  ∧ ((ls.map WireLayer.id).Nodup →
      (sendMessageWith s q (.ok resp)).layers = ls.map toMapLayer) := by
  have hmain := layers_sendMessageWith_some s q resp ls h
  refine ⟨hmain, ?_, ?_⟩
  · intro he
    subst he
    simpa using hmain
  · intro hnd
    rw [hmain]
    have hfresh := foldl_addLayerList_of_fresh (ls.map toMapLayer) []
      (by rw [ids_map_toMapLayer]; exact hnd) (by simp)
    simpa using hfresh

/-- Witness for C2: seed two layers, answer with `map_layers = []` — the
resulting layer count is zero. -/
theorem claim_C2_witness :
    (emptyLayersResponse.map_layers = some ([] : List WireLayer))
  ∧ (sendMessageWith (addLayer (addLayer initialState sampleLayerA) sampleLayerB)
      "clear everything" (.ok emptyLayersResponse)).layers = [] := by
  refine ⟨rfl, ?_⟩
  exact (claim_C2 (addLayer (addLayer initialState sampleLayerA) sampleLayerB)
    "clear everything" emptyLayersResponse [] rfl).2.1 rfl

/-- C3: `addLayer` removes any layer with the same id and appends at the
tail; folding `addLayer` from the empty list yields one layer per
distinct id, and re-adding an existing id keeps the count and moves the
layer to the tail with the new content. -/
theorem claim_C3 (seq : List MapLayer) (ls : List MapLayer) (x : MapLayer)
    (hnd : (ls.map MapLayer.id).Nodup) (hx : x.id ∈ ls.map MapLayer.id) :
    addLayerList ls x = ls.filter (fun l => decide (l.id ≠ x.id)) ++ [x]
  ∧ (seq.foldl addLayerList []).length = (seq.map MapLayer.id).dedup.length
  ∧ (addLayerList ls x).length = ls.length
  ∧ (addLayerList ls x).getLast? = some x :=
  ⟨rfl, length_foldl_addLayerList_nil seq,
    length_addLayerList_of_mem ls x hnd hx, getLast_addLayerList ls x⟩

/-- Witness for C3: three adds with two distinct ids give two layers;
re-adding id `alpha` keeps the count at two and puts the new content at
the tail. -/
theorem claim_C3_witness :
    (([sampleLayerA, sampleLayerB].map MapLayer.id).Nodup
      ∧ sampleLayerA2.id ∈ [sampleLayerA, sampleLayerB].map MapLayer.id)
  ∧ ([sampleLayerA, sampleLayerB, sampleLayerA2].foldl addLayerList []).length = 2
  ∧ (addLayerList [sampleLayerA, sampleLayerB] sampleLayerA2).length = 2
  ∧ (addLayerList [sampleLayerA, sampleLayerB] sampleLayerA2).getLast?
      = some sampleLayerA2 := by
  have h := claim_C3 [sampleLayerA, sampleLayerB, sampleLayerA2]
    [sampleLayerA, sampleLayerB] sampleLayerA2 (by decide) (by decide)
  refine ⟨⟨by decide, by decide⟩, ?_, ?_, h.2.2.2⟩
  · rw [h.2.1]
    decide
  · rw [h.2.2.1]
    decide

/-- C4: enqueuing a well-formed map action and notifying the
`pendingMapAction` observer issues exactly one camera command (with the
fallbacks zoom 12, pitch 0, bearing 0, duration 2000 for an unspecified
flyTo, and padding 50, duration 2000 for fitBounds), clears the slot to
none, and a further notification — as after re-subscribing — changes
nothing and replays nothing. -/
theorem claim_C4 (s : AppState) (cmds : List CameraCommand) (a : MapAction)
    (hwf : a.type = "flyTo" ∨ (a.type = "fitBounds" ∧ a.bounds.isSome)) :
    (notifyMapObserver true (setMapAction s a) cmds).1.pendingMapAction = none
  ∧ (∃ c, handleMapAction a = some c
      ∧ (notifyMapObserver true (setMapAction s a) cmds).2 = cmds ++ [c])
  ∧ notifyMapObserver true (notifyMapObserver true (setMapAction s a) cmds).1
      (notifyMapObserver true (setMapAction s a) cmds).2
      = ((notifyMapObserver true (setMapAction s a) cmds).1,
         (notifyMapObserver true (setMapAction s a) cmds).2)
  ∧ (a.type = "flyTo" → a.zoom = none → a.pitch = none → a.bearing = none →
      a.duration = none →
      handleMapAction a = some (CameraCommand.flyTo a.center 12 0 0 2000))
  ∧ (∀ b, a.type = "fitBounds" → a.bounds = some b →
      handleMapAction a = some (CameraCommand.fitBounds b 50 2000)) := by
  have hcmd : ∃ c, handleMapAction a = some c := by
    rcases hwf with h | ⟨h, hb⟩
    · refine ⟨CameraCommand.flyTo a.center (orNum a.zoom 12) (orNum a.pitch 0)
        (orNum a.bearing 0) (orNum a.duration 2000), ?_⟩
      unfold handleMapAction
      rw [if_pos h]
    · obtain ⟨b, hb2⟩ := Option.isSome_iff_exists.mp hb
      refine ⟨CameraCommand.fitBounds b 50 2000, ?_⟩
      have hne : a.type ≠ "flyTo" := by rw [h]; decide
      unfold handleMapAction
      rw [if_neg hne, if_pos h, hb2]
  obtain ⟨c, hc⟩ := hcmd
  refine ⟨rfl, ⟨c, hc, ?_⟩, rfl, ?_, ?_⟩
  · simp [notifyMapObserver, setMapAction, clearMapAction, hc]
  · intro h hz hp hb hd
    unfold handleMapAction
    rw [if_pos h, hz, hp, hb, hd]
    rfl
  · intro b h hb
    have hne : a.type ≠ "flyTo" := by rw [h]; decide
    unfold handleMapAction
    rw [if_neg hne, if_pos h, hb]

/-- Witness for C4: a fully unspecified flyTo action is well formed, and
one notification leaves the slot empty. -/
theorem claim_C4_witness :
    (sampleFlyTo.type = "flyTo"
      ∨ (sampleFlyTo.type = "fitBounds" ∧ sampleFlyTo.bounds.isSome))
  ∧ (notifyMapObserver true (setMapAction initialState sampleFlyTo) []).1.pendingMapAction
      = none :=
  ⟨Or.inl rfl, (claim_C4 initialState [] sampleFlyTo (Or.inl rfl)).1⟩

/-- C5: when the backend transport fails, `sendMessage` resolves to a
state (never letting the exception escape): `geoApi.chat` synthesizes a
local response with status `error`, the chat log grows by exactly the
user message and one generic failure message, and the layer list, chart
and pending action are unchanged; loading ends false. -/
theorem claim_C5 (s : AppState) (q : String) :
    (sendMessage s q .failure).layers = s.layers
  ∧ (sendMessage s q .failure).currentChart = s.currentChart
  ∧ (sendMessage s q .failure).pendingMapAction = s.pendingMapAction
  ∧ (sendMessage s q .failure).isLoading = false
  ∧ (geoApiChat q .failure).status = "error"
  ∧ (sendMessage s q .failure).messages = s.messages ++
      [ { id := "msg-" ++ toString s.clock, role := "user", content := q,
          timestamp := s.clock, code := none, mapLayers := none, data := none,
          chart := none, mapAction := none },
        { id := "msg-" ++ toString (s.clock + 1), role := "assistant",
          content := (fallbackResponse q).message,
          timestamp := s.clock + 1, code := none, mapLayers := none, data := none,
          chart := none, mapAction := none } ] := by
  refine ⟨rfl, rfl, rfl, rfl, rfl, ?_⟩
  simp [sendMessage, sendMessageWith, geoApiChat, fallbackResponse, addMessage,
    setLoading]

/-- C6: layer ids are unique in every state reachable from the initial
state by any sequence of store operations, including `sendMessage` calls
whose responses may carry duplicate layer ids. -/
theorem claim_C6 (ops : List StoreOp) :
    ((runOps ops).layers.map MapLayer.id).Nodup := by
  have key : ∀ (l : List StoreOp) (s : AppState),
      (s.layers.map MapLayer.id).Nodup →
      ((l.foldl applyOp s).layers.map MapLayer.id).Nodup := by
    intro l
    induction l with
    | nil => intro s h; exact h
    | cons op rest ih =>
        intro s h
        exact ih (applyOp s op) (nodup_layers_applyOp s op h)
  exact key ops initialState (by simp [initialState])

/-- C7: `clearMessages` leaves exactly one message, its role is
`assistant` (never `user`), and the chart is cleared. -/
theorem claim_C7 (s : AppState) :
    (clearMessages s).messages = [clearedWelcomeMessage s.clock]
  ∧ (clearMessages s).messages.length = 1
  ∧ (clearedWelcomeMessage s.clock).role = "assistant"
  ∧ (clearedWelcomeMessage s.clock).role ≠ "user"
  ∧ (clearMessages s).currentChart = none := by
  have hne : ("assistant" : String) ≠ "user" := by decide
  exact ⟨rfl, rfl, rfl, hne, rfl⟩

/-- C8: `toggle3D` flips `is3DEnabled` and couples pitch to the new
flag — every toggle that turns 3D on sets pitch to 45 and every toggle
that turns it off sets pitch to 0, regardless of the current pitch; from
the initial state the round trip gives pitch 45 then pitch 0. -/
theorem claim_C8 (s : AppState) :
    (toggle3D s).is3DEnabled = !s.is3DEnabled
  ∧ (toggle3D s).viewState.pitch = (if s.is3DEnabled then (0 : ℚ) else 45)
  ∧ (toggle3D initialState).is3DEnabled = true
  ∧ (toggle3D initialState).viewState.pitch = 45
  ∧ (toggle3D (toggle3D initialState)).is3DEnabled = false
  ∧ (toggle3D (toggle3D initialState)).viewState.pitch = 0 := by
  refine ⟨rfl, rfl, rfl, ?_, rfl, ?_⟩
  · decide
  · decide

/-- C9: `toggleLayerVisibility` is self-inverse — two toggles with the
same id restore the whole store state, every layer field included. -/
theorem claim_C9 (s : AppState) (i : String) :
    toggleLayerVisibility (toggleLayerVisibility s i) i = s := by
  show { s with layers :=
    ((s.layers.map (fun l => if l.id = i then { l with visible := !l.visible } else l)).map
      (fun l => if l.id = i then { l with visible := !l.visible } else l)) } = s
  rw [toggleList_involutive]

/-- C10: a mutation keyed by an id absent from the layer list is a
silent no-op — `removeLayer`, `toggleLayerVisibility` and
`setLayerOpacity` leave the entire store state unchanged. -/
theorem claim_C10 (s : AppState) (i : String) (v : ℚ)
    (h : i ∉ s.layers.map MapLayer.id) :
    removeLayer s i = s
  ∧ toggleLayerVisibility s i = s
  ∧ setLayerOpacity s i v = s := by
  refine ⟨?_, ?_, ?_⟩
  · show { s with layers := s.layers.filter (fun l => decide (l.id ≠ i)) } = s
    rw [filter_ne_id_of_not_mem s.layers i h]
  · show { s with layers := List.map (fun l => if l.id = i then { l with visible := !l.visible } else l) s.layers } = s
    rw [map_ite_id_of_not_mem s.layers i _ h]
  · show { s with layers := List.map (fun l => if l.id = i then { l with opacity := v } else l) s.layers } = s
    rw [map_ite_id_of_not_mem s.layers i _ h]

/-- Witness for C10: removing an id that no layer carries leaves the
initial state untouched. -/
theorem claim_C10_witness :
    ("ghost" ∉ initialState.layers.map MapLayer.id)
  ∧ removeLayer initialState "ghost" = initialState := by
  have h : "ghost" ∉ initialState.layers.map MapLayer.id := by
    simp [initialState]
  exact ⟨h, (claim_C10 initialState "ghost" 1 h).1⟩

end GeoGPT
